import Mathlib

/-!
Verification of the ticket-entry CRUD service (`src/main.rs`).

The service is a thin HTTP wrapper over one relational table `entradas`.
We embed the data model, the repository statements and the five request
handlers as pure Lean functions, with the backing store modelled as a
list of rows and connection/query failures injected as explicit inputs.
-/

/-- A row of the `entradas` table (the `Entrada` struct with a concrete id,
as stored: `id` is the server-assigned primary key, `numero_cedula` is
unique across rows). -/
structure Fila where
  id : Nat
  numero_cedula : String
  nombre_cliente : String
  nombre_funcion : String
  cantidad_entradas : Nat
  horario_funcion : String
deriving DecidableEq, Repr

/-- The `Entrada` struct as serialized in responses (`id: Option<u32>`). -/
structure Entrada where
  id : Option Nat
  numero_cedula : String
  nombre_cliente : String
  nombre_funcion : String
  cantidad_entradas : Nat
  horario_funcion : String
deriving DecidableEq, Repr

/-- The `CrearEntrada` payload: all five non-id fields required. -/
structure CrearEntrada where
  numero_cedula : String
  nombre_cliente : String
  nombre_funcion : String
  cantidad_entradas : Nat
  horario_funcion : String
deriving DecidableEq, Repr

/-- The `ActualizarEntrada` payload: every field optional. -/
structure ActualizarEntrada where
  numero_cedula : Option String
  nombre_cliente : Option String
  nombre_funcion : Option String
  cantidad_entradas : Option Nat
  horario_funcion : Option String
deriving DecidableEq, Repr

/-- Row sent back over HTTP: a stored row with `id = Some id`,
mirroring the row-mapping closures in the two SELECT handlers. -/
def filaToEntrada (f : Fila) : Entrada :=
  ⟨some f.id, f.numero_cedula, f.nombre_cliente, f.nombre_funcion,
    f.cantidad_entradas, f.horario_funcion⟩

/-- A JSON response body: the handlers emit either a string message
(`.json("...")`), an array of entries, or a single entry. -/
inductive CuerpoJson where
  | jstr (s : String)
  | jarr (l : List Entrada)
  | jobj (e : Entrada)
deriving DecidableEq, Repr

/-- Observable outcome of one handler invocation: HTTP status, JSON body,
the store state afterwards, the diagnostic lines written with `eprintln`,
and the number of SQL statements executed. -/
structure HandlerOut where
  status : Nat
  body : CuerpoJson
  db : List Fila
  log : List String
  execs : Nat
deriving DecidableEq, Repr

/-- Holds when `needle` matches `hay` position by position from the front
(needle exhausted first). Char-level core of the substring test. -/
def matchesAt : List Char → List Char → Bool
  | [], _ => true
  | _ :: _, [] => false
  | a :: as, b :: bs => a == b && matchesAt as bs

/-- Holds when `needle` occurs contiguously somewhere in `hay`. -/
def subIn (needle : List Char) : List Char → Bool
  | [] => needle.isEmpty
  | b :: bs => matchesAt needle (b :: bs) || subIn needle bs

/-- Substring test on strings: the embedding of the Rust call
`e.to_string().contains(...)` used for conflict detection. -/
def hasSub (needle hay : String) : Bool :=
  subIn needle.data hay.data

/-- Modelled from the spec: the store enforces the uniqueness constraint on
`customer_id` and a violated insert/update surfaces as a driver error whose
text contains "Duplicate entry" (the substring the handlers match on). -/
def dupMsg (cedula : String) : String :=
  "Duplicate entry " ++ cedula ++ " for key entradas.numero_cedula"

/-- Next auto-increment id: one more than the largest id in the table.
Modelled from the spec: `id` is a server-assigned integer identity,
unique and immutable once assigned. -/
def nextId (db : List Fila) : Nat :=
  db.foldr (fun r m => max r.id m) 0 + 1

/-- Modelled from the spec: executing the parameterized INSERT of
`crear_entrada` against the store. A duplicate `numero_cedula` violates
the uniqueness constraint and errors; otherwise the row is appended with
the next auto-increment id. -/
def execInsert (db : List Fila) (p : CrearEntrada) : Except String (List Fila) :=
  if db.any (fun r => r.numero_cedula == p.numero_cedula) then
    .error (dupMsg p.numero_cedula)
  else
    .ok (db ++ [⟨nextId db, p.numero_cedula, p.nombre_cliente, p.nombre_funcion,
      p.cantidad_entradas, p.horario_funcion⟩])

/-- Modelled from the spec: the SELECT ... WHERE id = :id of
`obtener_entrada_por_id` returns the first (unique) matching row. -/
def selectById (db : List Fila) (i : Nat) : Option Fila :=
  db.find? (fun r => r.id == i)

/-- A row after applying the partial-update payload: supplied fields
replace the stored ones, absent fields keep their stored values. -/
def applyUpd (p : ActualizarEntrada) (r : Fila) : Fila :=
  ⟨r.id, p.numero_cedula.getD r.numero_cedula, p.nombre_cliente.getD r.nombre_cliente,
    p.nombre_funcion.getD r.nombre_funcion, p.cantidad_entradas.getD r.cantidad_entradas,
    p.horario_funcion.getD r.horario_funcion⟩

/-- Modelled from the spec: whether the dynamic UPDATE would violate the
uniqueness constraint on `numero_cedula`: it supplies a cedula, a row with
the target id exists, and a different row already holds that cedula. -/
def dupViolation (db : List Fila) (i : Nat) (p : ActualizarEntrada) : Bool :=
  match p.numero_cedula with
  | none => false
  | some c =>
    db.any (fun r => r.id == i) && db.any (fun r => r.id != i && r.numero_cedula == c)

/-- Modelled from the spec: executing the dynamically built UPDATE of
`actualizar_entrada`. On success returns the new table and the
affected-row count: the number of rows matching the id whose values
actually change (0 means no such id or no actual change). -/
def execUpdate (db : List Fila) (i : Nat) (p : ActualizarEntrada) :
    Except String (List Fila × Nat) :=
  if dupViolation db i p then
    .error (dupMsg (p.numero_cedula.getD ""))
  else
    .ok (db.map (fun r => if r.id == i then applyUpd p r else r),
      (db.filter (fun r => r.id == i && applyUpd p r != r)).length)

/-- Modelled from the spec: executing the DELETE ... WHERE id = :id of
`eliminar_entrada`: removes every row with the id and reports how many. -/
def execDelete (db : List Fila) (i : Nat) : List Fila × Nat :=
  (db.filter (fun r => r.id != i), (db.filter (fun r => r.id == i)).length)

/-- Fault injection for "any other store failure": `some e` makes the
statement fail with driver error text `e` instead of executing. -/
def run (fault : Option String) (r : Except String α) : Except String α :=
  match fault with
  | some e => .error e
  | none => r

/-- SQL parameter value (`mysql_async::Value`): the update builder binds
strings and unsigned integers. -/
inductive Valor where
  | vStr (s : String)
  | vNum (n : Nat)
deriving DecidableEq, Repr

/-- The `query_parts` vector of `actualizar_entrada`: one SET-clause
assignment pushed per supplied optional field, in source order. -/
def queryParts (p : ActualizarEntrada) : List String :=
  (if p.numero_cedula.isSome then ["numero_cedula = :numero_cedula"] else []) ++
  (if p.nombre_cliente.isSome then ["nombre_cliente = :nombre_cliente"] else []) ++
  (if p.nombre_funcion.isSome then ["nombre_funcion = :nombre_funcion"] else []) ++
  (if p.cantidad_entradas.isSome then ["cantidad_entradas = :cantidad_entradas"] else []) ++
  (if p.horario_funcion.isSome then ["horario_funcion = :horario_funcion"] else [])

/-- The `params_vec` of `actualizar_entrada`: the path id bound first under
the key "id", then one binding per supplied field, in source order. -/
def paramsVec (i : Nat) (p : ActualizarEntrada) : List (String × Valor) :=
  ("id", .vNum i) ::
  ((match p.numero_cedula with
    | some c => [("numero_cedula", Valor.vStr c)]
    | none => []) ++
   (match p.nombre_cliente with
    | some c => [("nombre_cliente", Valor.vStr c)]
    | none => []) ++
   (match p.nombre_funcion with
    | some c => [("nombre_funcion", Valor.vStr c)]
    | none => []) ++
   (match p.cantidad_entradas with
    | some n => [("cantidad_entradas", Valor.vNum n)]
    | none => []) ++
   (match p.horario_funcion with
    | some c => [("horario_funcion", Valor.vStr c)]
    | none => []))

/-- The UPDATE statement text built by `format!` in `actualizar_entrada`. -/
def updateQuery (p : ActualizarEntrada) : String :=
  "UPDATE entradas SET " ++ (String.intercalate ", " (queryParts p) ++ " WHERE id = :id")

/-- Handler `obtener_entradas` (GET /entradas): acquire a connection, run
the SELECT of all rows, map outcomes. `conn` is the pool checkout outcome,
`fault` injects a query failure. -/
def obtenerEntradas (conn : Except String Unit) (fault : Option String)
    (db : List Fila) : HandlerOut :=
  match conn with
  | .error e =>
    ⟨500, .jstr "Error al conectar a la base de datos", db,
      ["Error al obtener conexión: " ++ e], 0⟩
  | .ok _ =>
    match run fault (.ok (db.map filaToEntrada)) with
    | .ok l => ⟨200, .jarr l, db, [], 1⟩
    | .error e =>
      ⟨500, .jstr "Error al obtener entradas", db,
        ["Error al consultar entradas: " ++ e], 1⟩

/-- Handler `obtener_entrada_por_id` (GET /entradas/id). -/
def obtenerEntradaPorId (conn : Except String Unit) (fault : Option String)
    (db : List Fila) (i : Nat) : HandlerOut :=
  match conn with
  | .error e =>
    ⟨500, .jstr "Error al conectar a la base de datos", db,
      ["Error al obtener conexión: " ++ e], 0⟩
  | .ok _ =>
    match run fault (.ok (selectById db i)) with
    | .ok (some f) => ⟨200, .jobj (filaToEntrada f), db, [], 1⟩
    | .ok none => ⟨404, .jstr "Entrada no encontrada", db, [], 1⟩
    | .error e =>
      ⟨500, .jstr "Error al obtener entrada", db,
        ["Error al consultar entrada: " ++ e], 1⟩

/-- Handler `crear_entrada` (POST /entradas): INSERT, then map `Ok` to 201,
an error containing "Duplicate entry" to 409, any other error to 500. -/
def crearEntrada (conn : Except String Unit) (fault : Option String)
    (db : List Fila) (p : CrearEntrada) : HandlerOut :=
  match conn with
  | .error e =>
    ⟨500, .jstr "Error al conectar a la base de datos", db,
      ["Error al obtener conexión: " ++ e], 0⟩
  | .ok _ =>
    match run fault (execInsert db p) with
    | .ok db2 => ⟨201, .jstr "Entrada creada exitosamente", db2, [], 1⟩
    | .error e =>
      if hasSub "Duplicate entry" e then
        ⟨409, .jstr "El número de cédula ya existe para otra entrada", db,
          ["Error al crear entrada: " ++ e], 1⟩
      else
        ⟨500, .jstr "Error al crear entrada", db,
          ["Error al crear entrada: " ++ e], 1⟩

/-- Handler `actualizar_entrada` (PUT /entradas/id): acquire a connection,
build the SET clause, reject an empty field set with 400 before executing,
otherwise run the UPDATE and map affected rows (0 to 404, more to 200),
a "Duplicate entry" error to 409 and any other error to 500. -/
def actualizarEntrada (conn : Except String Unit) (fault : Option String)
    (db : List Fila) (i : Nat) (p : ActualizarEntrada) : HandlerOut :=
  match conn with
  | .error e =>
    ⟨500, .jstr "Error al conectar a la base de datos", db,
      ["Error al obtener conexión: " ++ e], 0⟩
  | .ok _ =>
    if (queryParts p).isEmpty then
      ⟨400, .jstr "No se proporcionaron datos para actualizar", db, [], 0⟩
    else
      match run fault (execUpdate db i p) with
      | .ok (db2, n) =>
        if n = 0 then
          ⟨404, .jstr "Entrada no encontrada o sin cambios", db2, [], 1⟩
        else
          ⟨200, .jstr "Entrada actualizada exitosamente", db2, [], 1⟩
      | .error e =>
        if hasSub "Duplicate entry" e then
          ⟨409, .jstr "El número de cédula ya existe para otra entrada", db,
            ["Error al actualizar entrada: " ++ e], 1⟩
        else
          ⟨500, .jstr "Error al actualizar entrada", db,
            ["Error al actualizar entrada: " ++ e], 1⟩

/-- Handler `eliminar_entrada` (DELETE /entradas/id): DELETE, then map
affected rows 0 to 404, more to 200, and any error to 500. -/
def eliminarEntrada (conn : Except String Unit) (fault : Option String)
    (db : List Fila) (i : Nat) : HandlerOut :=
  match conn with
  | .error e =>
    ⟨500, .jstr "Error al conectar a la base de datos", db,
      ["Error al obtener conexión: " ++ e], 0⟩
  | .ok _ =>
    match run fault (.ok (execDelete db i)) with
    | .ok (db2, n) =>
      if n = 0 then
        ⟨404, .jstr "Entrada no encontrada", db2, [], 1⟩
      else
        ⟨200, .jstr "Entrada eliminada exitosamente", db2, [], 1⟩
    | .error e =>
      ⟨500, .jstr "Error al eliminar entrada", db,
        ["Error al eliminar entrada: " ++ e], 1⟩

/-- Outcome of `main`: either the process exits with a code before serving,
or the HTTP server is started. -/
inductive MainOutcome where
  | exited (code : Nat)
  | serving
deriving DecidableEq, Repr

/-- Model of `main`: initialize the pool from configuration; on failure log and
`std::process::exit(1)` before binding the server, otherwise serve. -/
def mainRun (poolInit : Except String Unit) : MainOutcome :=
  match poolInit with
  | .error _ => .exited 1
  | .ok _ => .serving

/-- A creation body as raw JSON fields: the numeric field arrives as an
arbitrary JSON number (any rational), before `u32` deserialization. -/
structure CrearJson where
  numero_cedula : String
  nombre_cliente : String
  nombre_funcion : String
  cantidad_entradas : Rat
  horario_funcion : String
deriving DecidableEq, Repr

/-- An update body as raw JSON fields. -/
structure ActualizarJson where
  numero_cedula : Option String
  nombre_cliente : Option String
  nombre_funcion : Option String
  cantidad_entradas : Option Rat
  horario_funcion : Option String
deriving DecidableEq, Repr

/-- Modelled from the spec: serde deserialization of a JSON number into the
`u32` field `cantidad_entradas`: it succeeds exactly on integers in
[0, 2^32), and fails on negative or non-integer numbers. -/
def deserU32 (q : Rat) : Option Nat :=
  if q.den = 1 ∧ 0 ≤ q.num ∧ q.num < 4294967296 then some q.num.toNat else none

/-- Deserialization of a `CrearEntrada` payload from its raw JSON fields. -/
def deserCrear (j : CrearJson) : Option CrearEntrada :=
  (deserU32 j.cantidad_entradas).map fun n =>
    ⟨j.numero_cedula, j.nombre_cliente, j.nombre_funcion, n, j.horario_funcion⟩

/-- Deserialization of an `ActualizarEntrada` payload: an absent ticket
field stays absent, a present one must deserialize as `u32`. -/
def deserActualizar (j : ActualizarJson) : Option ActualizarEntrada :=
  match j.cantidad_entradas with
  | none =>
    some ⟨j.numero_cedula, j.nombre_cliente, j.nombre_funcion, none, j.horario_funcion⟩
  | some q =>
    (deserU32 q).map fun n =>
      ⟨j.numero_cedula, j.nombre_cliente, j.nombre_funcion, some n, j.horario_funcion⟩

/-- Modelled from the spec: the `web::Json` extractor of the framework answers
400 on a malformed payload before the handler body runs, so the store is
never touched. POST route with extraction. -/
def crearConExtraccion (conn : Except String Unit) (fault : Option String)
    (db : List Fila) (j : CrearJson) : HandlerOut :=
  match deserCrear j with
  | none => ⟨400, .jstr "Json deserialize error", db, [], 0⟩
  | some p => crearEntrada conn fault db p

/-- Modelled from the spec: PUT route with `web::Json` extraction. -/
def actualizarConExtraccion (conn : Except String Unit) (fault : Option String)
    (db : List Fila) (i : Nat) (j : ActualizarJson) : HandlerOut :=
  match deserActualizar j with
  | none => ⟨400, .jstr "Json deserialize error", db, [], 0⟩
  | some p => actualizarEntrada conn fault db i p

/-! ### Helper lemmas on the substring test -/

theorem matchesAt_append_self (xs ys : List Char) : matchesAt xs (xs ++ ys) = true := by
  induction xs with
  | nil => rfl
  | cons a as ih => simp [matchesAt, ih]

theorem subIn_append_left (xs ys : List Char) : subIn xs (xs ++ ys) = true := by
  cases xs with
  | nil =>
    cases ys with
    | nil => rfl
    | cons b bs => simp [subIn, matchesAt]
  | cons a as =>
    simp only [subIn, Bool.or_eq_true]
    exact Or.inl (matchesAt_append_self (a :: as) ys)

theorem subIn_cons (b : Char) (xs l : List Char) (h : subIn xs l = true) :
    subIn xs (b :: l) = true := by
  simp [subIn, h]

theorem subIn_append_pre (pre xs l : List Char) (h : subIn xs l = true) :
    subIn xs (pre ++ l) = true := by
  induction pre with
  | nil => simpa
  | cons b bs ih => exact subIn_cons b xs (bs ++ l) ih

theorem hasSub_append_left (s t : String) : hasSub s (s ++ t) = true := by
  unfold hasSub
  rw [String.data_append]
  exact subIn_append_left _ _

theorem hasSub_append_right (s t : String) : hasSub t (s ++ t) = true := by
  unfold hasSub
  rw [String.data_append]
  exact subIn_append_pre _ _ _ (by simpa using subIn_append_left t.data [])

/-- The driver uniqueness-violation message always contains the substring
the handlers test for. -/
theorem hasSub_dupMsg (c : String) : hasSub "Duplicate entry" (dupMsg c) = true := by
  unfold hasSub dupMsg
  rw [String.data_append, String.data_append]
  have h : ("Duplicate entry " : String).data = ("Duplicate entry" : String).data ++ [' '] := by
    decide
  rw [h, List.append_assoc]
  exact subIn_append_left _ _

/-! ### Helper lemmas on ids and lookup -/

theorem id_le_fold (db : List Fila) (r : Fila) (h : r ∈ db) :
    r.id ≤ db.foldr (fun s m => max s.id m) 0 := by
  induction db with
  | nil => cases h
  | cons hd tl ih =>
    rcases List.mem_cons.mp h with h1 | h2
    · subst h1; exact le_max_left _ _
    · exact le_trans (ih h2) (le_max_right _ _)

/-- Every stored id is strictly below the next auto-increment id. -/
theorem id_lt_nextId (db : List Fila) (r : Fila) (h : r ∈ db) : r.id < nextId db :=
  Nat.lt_succ_of_le (id_le_fold db r h)

/-- Looking up the freshly assigned id after an append finds the new row. -/
theorem selectById_append_new (db : List Fila) (f : Fila) (hf : f.id = nextId db) :
    selectById (db ++ [f]) (nextId db) = some f := by
  unfold selectById
  rw [List.find?_append]
  have h1 : db.find? (fun r => r.id == nextId db) = none := by
    rw [List.find?_eq_none]
    intro r hr
    simp only [beq_iff_eq]
    exact Nat.ne_of_lt (id_lt_nextId db r hr)
  rw [h1]
  simp [hf]

/-! ### The five updatable columns -/

/-- The five optional columns of the update payload. -/
inductive Campo where
  | cedula | cliente | funcion | cantidad | horario
deriving DecidableEq, Fintype, Repr

/-- The updatable columns in the order the handler inspects them. -/
def todosCampos : List Campo := [.cedula, .cliente, .funcion, .cantidad, .horario]

/-- Whether the update payload supplies the given column. -/
def presente (p : ActualizarEntrada) : Campo → Bool
  | .cedula => p.numero_cedula.isSome
  | .cliente => p.nombre_cliente.isSome
  | .funcion => p.nombre_funcion.isSome
  | .cantidad => p.cantidad_entradas.isSome
  | .horario => p.horario_funcion.isSome

/-- The SET-clause assignment pushed for the given column. -/
def asign : Campo → String
  | .cedula => "numero_cedula = :numero_cedula"
  | .cliente => "nombre_cliente = :nombre_cliente"
  | .funcion => "nombre_funcion = :nombre_funcion"
  | .cantidad => "cantidad_entradas = :cantidad_entradas"
  | .horario => "horario_funcion = :horario_funcion"

/-- The column name of the given field. -/
def columna : Campo → String
  | .cedula => "numero_cedula"
  | .cliente => "nombre_cliente"
  | .funcion => "nombre_funcion"
  | .cantidad => "cantidad_entradas"
  | .horario => "horario_funcion"

/-- The `query_parts` vector holds the assignments of exactly the supplied
columns, in inspection order. -/
theorem queryParts_eq (p : ActualizarEntrada) :
    queryParts p = (todosCampos.filter (presente p)).map asign := by
  obtain ⟨a, b, c, d, e⟩ := p
  cases a <;> cases b <;> cases c <;> cases d <;> cases e <;> rfl

/-- The parameter keys are "id" followed by exactly the supplied columns. -/
theorem paramsVec_keys (i : Nat) (p : ActualizarEntrada) :
    (paramsVec i p).map Prod.fst = "id" :: (todosCampos.filter (presente p)).map columna := by
  obtain ⟨a, b, c, d, e⟩ := p
  cases a <;> cases b <;> cases c <;> cases d <;> cases e <;> rfl

theorem asign_injective : ∀ f g : Campo, asign f = asign g → f = g := by decide

theorem mem_todosCampos : ∀ f : Campo, f ∈ todosCampos := by decide

theorem columna_ne_id : ∀ f : Campo, columna f ≠ "id" := by decide

/-! ### Claim theorems -/

/-- C1: for every update request, the SET clause of the UPDATE statement is
built from exactly the optional fields present in the payload (the parts
vector is the assignment of each supplied column and nothing else, one per
supplied field), the statement is keyed by the path id in the WHERE clause
(the text carries " WHERE id = :id" and the first parameter binds "id" to
the path id), and the id binding never appears as an updatable field in the
SET clause (every SET item assigns one of the five non-id columns, and no
parameter key after the first is "id"). -/
theorem C1_update_set_clause (i : Nat) (p : ActualizarEntrada) :
    queryParts p = (todosCampos.filter (presente p)).map asign ∧
    (∀ f : Campo, asign f ∈ queryParts p ↔ presente p f = true) ∧
    (queryParts p).length = (todosCampos.filter (presente p)).length ∧
    hasSub " WHERE id = :id" (updateQuery p) = true ∧
    (paramsVec i p).head? = some ("id", .vNum i) ∧
    (∀ s ∈ queryParts p, ∃ f : Campo, s = asign f ∧ presente p f = true ∧ columna f ≠ "id") ∧
    "id" ∉ ((paramsVec i p).map Prod.fst).tail := by
  refine ⟨queryParts_eq p, ?_, ?_, ?_, rfl, ?_, ?_⟩
  · intro f
    rw [queryParts_eq]
    constructor
    · intro hm
      obtain ⟨g, hg, hEq⟩ := List.mem_map.mp hm
      obtain rfl := asign_injective g f hEq
      exact (List.mem_filter.mp hg).2
    · intro hp
      exact List.mem_map.mpr ⟨f, List.mem_filter.mpr ⟨mem_todosCampos f, hp⟩, rfl⟩
  · rw [queryParts_eq, List.length_map]
  · unfold updateQuery
    rw [← String.append_assoc]
    exact hasSub_append_right _ _
  · intro s hs
    rw [queryParts_eq] at hs
    obtain ⟨f, hf, rfl⟩ := List.mem_map.mp hs
    exact ⟨f, rfl, (List.mem_filter.mp hf).2, columna_ne_id f⟩
  · rw [paramsVec_keys]
    intro hmem
    obtain ⟨f, _, hEq⟩ := List.mem_map.mp hmem
    exact columna_ne_id f hEq

/-- C2 counterexample: a successful create does not return the assigned id.
Two creations of the same payload over stores whose next auto-increment
ids differ (1 versus 6) both succeed with 201 and produce identical
response bodies, so the response cannot carry the assigned id, refuting
"a successful create returns the assigned id of the new entry". -/
theorem C2_counterexample :
    nextId [] ≠ nextId [⟨5, "999", "Luis", "Show", 1, "18:00"⟩] ∧
    (crearEntrada (.ok ()) none [] ⟨"001", "Ana", "Matrix", 2, "20:00"⟩).status = 201 ∧
    (crearEntrada (.ok ()) none [⟨5, "999", "Luis", "Show", 1, "18:00"⟩]
      ⟨"001", "Ana", "Matrix", 2, "20:00"⟩).status = 201 ∧
    (crearEntrada (.ok ()) none [] ⟨"001", "Ana", "Matrix", 2, "20:00"⟩).body =
      (crearEntrada (.ok ()) none [⟨5, "999", "Luis", "Show", 1, "18:00"⟩]
        ⟨"001", "Ana", "Matrix", 2, "20:00"⟩).body := by
  decide

/-- C2 (amended): for every creation payload with a fresh customer id, a
successful create responds 201 with a fixed confirmation message (it does
not return the assigned id), and looking the newly assigned id up in the
resulting store yields an entry whose five non-id fields equal the
creation input. -/
theorem C2_create_roundtrip (db : List Fila) (p : CrearEntrada)
    (hfresh : db.any (fun r => r.numero_cedula == p.numero_cedula) = false) :
    (crearEntrada (.ok ()) none db p).status = 201 ∧
    (crearEntrada (.ok ()) none db p).body = .jstr "Entrada creada exitosamente" ∧
    ∃ f : Fila,
      selectById (crearEntrada (.ok ()) none db p).db (nextId db) = some f ∧
      f.numero_cedula = p.numero_cedula ∧
      f.nombre_cliente = p.nombre_cliente ∧
      f.nombre_funcion = p.nombre_funcion ∧
      f.cantidad_entradas = p.cantidad_entradas ∧
      f.horario_funcion = p.horario_funcion := by
  have hIns : execInsert db p =
      .ok (db ++ [⟨nextId db, p.numero_cedula, p.nombre_cliente, p.nombre_funcion,
        p.cantidad_entradas, p.horario_funcion⟩]) := by
    simp [execInsert, hfresh]
  have hRed : crearEntrada (.ok ()) none db p =
      ⟨201, .jstr "Entrada creada exitosamente",
        db ++ [⟨nextId db, p.numero_cedula, p.nombre_cliente, p.nombre_funcion,
          p.cantidad_entradas, p.horario_funcion⟩], [], 1⟩ := by
    simp [crearEntrada, run, hIns]
  rw [hRed]
  exact ⟨rfl, rfl,
    ⟨⟨nextId db, p.numero_cedula, p.nombre_cliente, p.nombre_funcion,
        p.cantidad_entradas, p.horario_funcion⟩,
      selectById_append_new db _ rfl, rfl, rfl, rfl, rfl, rfl⟩⟩

/-- Witness for C2 (amended) at the end-to-end example of the spec. -/
theorem C2_create_roundtrip_witness :
    (crearEntrada (.ok ()) none [] ⟨"001", "Ana", "Matrix", 2, "20:00"⟩).status = 201 ∧
    (crearEntrada (.ok ()) none [] ⟨"001", "Ana", "Matrix", 2, "20:00"⟩).body =
      .jstr "Entrada creada exitosamente" ∧
    ∃ f : Fila,
      selectById (crearEntrada (.ok ()) none [] ⟨"001", "Ana", "Matrix", 2, "20:00"⟩).db
        (nextId []) = some f ∧
      f.numero_cedula = "001" ∧
      f.nombre_cliente = "Ana" ∧
      f.nombre_funcion = "Matrix" ∧
      f.cantidad_entradas = 2 ∧
      f.horario_funcion = "20:00" :=
  C2_create_roundtrip [] ⟨"001", "Ana", "Matrix", 2, "20:00"⟩ (by decide)

/-- C3: on create and on update, a customer-id that duplicates another
existing entry is answered 409 (a conflict response, not a crash and not
500), while any other store failure is answered 500. Connection checkout
is held fixed to success; the pool-failure path is treated separately. -/
theorem C3_conflict_mapping (db : List Fila) (p : CrearEntrada) (i : Nat)
    (u : ActualizarEntrada) (e : String) :
    (db.any (fun r => r.numero_cedula == p.numero_cedula) = true →
      (crearEntrada (.ok ()) none db p).status = 409) ∧
    (hasSub "Duplicate entry" e = false →
      (crearEntrada (.ok ()) (some e) db p).status = 500) ∧
    (dupViolation db i u = true → (queryParts u).isEmpty = false →
      (actualizarEntrada (.ok ()) none db i u).status = 409) ∧
    (hasSub "Duplicate entry" e = false → (queryParts u).isEmpty = false →
      (actualizarEntrada (.ok ()) (some e) db i u).status = 500) := by
  refine ⟨?_, ?_, ?_, ?_⟩
  · intro hdup
    have hIns : execInsert db p = .error (dupMsg p.numero_cedula) := by
      simp [execInsert, hdup]
    simp [crearEntrada, run, hIns, hasSub_dupMsg]
  · intro hnd
    simp [crearEntrada, run, hnd]
  · intro hdup hne
    have hUpd : execUpdate db i u = .error (dupMsg (u.numero_cedula.getD "")) := by
      simp [execUpdate, hdup]
    simp [actualizarEntrada, run, hne, hUpd, hasSub_dupMsg]
  · intro hnd hne
    simp [actualizarEntrada, run, hne, hnd]

/-- Witness for C3 over a two-row store: duplicate insert and duplicate
update answer 409, a non-duplicate store failure answers 500 for both. -/
theorem C3_conflict_mapping_witness :
    (crearEntrada (.ok ()) none
      [⟨1, "111", "A", "S", 1, "10:00"⟩, ⟨2, "222", "B", "T", 1, "11:00"⟩]
      ⟨"111", "C", "U", 1, "12:00"⟩).status = 409 ∧
    (crearEntrada (.ok ()) (some "deadlock")
      [⟨1, "111", "A", "S", 1, "10:00"⟩, ⟨2, "222", "B", "T", 1, "11:00"⟩]
      ⟨"111", "C", "U", 1, "12:00"⟩).status = 500 ∧
    (actualizarEntrada (.ok ()) none
      [⟨1, "111", "A", "S", 1, "10:00"⟩, ⟨2, "222", "B", "T", 1, "11:00"⟩] 2
      ⟨some "111", none, none, none, none⟩).status = 409 ∧
    (actualizarEntrada (.ok ()) (some "deadlock")
      [⟨1, "111", "A", "S", 1, "10:00"⟩, ⟨2, "222", "B", "T", 1, "11:00"⟩] 2
      ⟨some "111", none, none, none, none⟩).status = 500 := by
  have h := C3_conflict_mapping
    [⟨1, "111", "A", "S", 1, "10:00"⟩, ⟨2, "222", "B", "T", 1, "11:00"⟩]
    ⟨"111", "C", "U", 1, "12:00"⟩ 2 ⟨some "111", none, none, none, none⟩ "deadlock"
  exact ⟨h.1 (by decide), h.2.1 (by decide), h.2.2.1 (by decide) (by decide),
    h.2.2.2 (by decide) (by decide)⟩

/-- C4: an update request supplying none of the five optional fields is
answered 400, executes no statement against the store, and leaves the
store unchanged; whatever the connection outcome, the all-absent payload
never reaches the store. -/
theorem C4_empty_update (conn : Except String Unit) (fault : Option String)
    (db : List Fila) (i : Nat) :
    (actualizarEntrada (.ok ()) fault db i ⟨none, none, none, none, none⟩).status = 400 ∧
    (actualizarEntrada conn fault db i ⟨none, none, none, none, none⟩).db = db ∧
    (actualizarEntrada conn fault db i ⟨none, none, none, none, none⟩).execs = 0 := by
  cases conn with
  | error e => exact ⟨rfl, rfl, rfl⟩
  | ok u => exact ⟨rfl, rfl, rfl⟩

/-- C5: an update with at least one supplied field whose statement executes
without store error is answered 200 when the affected-row count is positive
and 404 when it is zero, and the count is zero exactly when no row has the
given id or the supplied values change nothing. -/
theorem C5_update_affected_mapping (db db2 : List Fila) (n i : Nat)
    (u : ActualizarEntrada) (hne : (queryParts u).isEmpty = false)
    (hex : execUpdate db i u = .ok (db2, n)) :
    (actualizarEntrada (.ok ()) none db i u).status = (if n = 0 then 404 else 200) ∧
    (n = 0 ↔ ∀ r ∈ db, r.id = i → applyUpd u r = r) := by
  constructor
  · by_cases h0 : n = 0 <;> simp [actualizarEntrada, run, hne, hex, h0]
  · have hn : n = (db.filter (fun r => r.id == i && applyUpd u r != r)).length := by
      unfold execUpdate at hex
      by_cases hdup : dupViolation db i u <;> simp [hdup] at hex
      exact hex.2.symm
    rw [hn, List.length_eq_zero, List.filter_eq_nil_iff]
    constructor
    · intro h r hr hid
      have := h r hr
      simp only [hid, beq_self_eq_true, Bool.true_and, bne_iff_ne, ne_eq,
        Decidable.not_not] at this
      exact this
    · intro h r hr
      by_cases hid : r.id = i
      · simp [hid, h r hr hid]
      · simp [hid]

/-- Witness for C5: updating the ticket count of the sole matching row
affects one row and is answered 200. -/
theorem C5_update_affected_mapping_witness :
    (actualizarEntrada (.ok ()) none [⟨1, "111", "A", "S", 2, "10:00"⟩] 1
      ⟨none, none, none, some 3, none⟩).status = (if 1 = 0 then 404 else 200) ∧
    (1 = 0 ↔ ∀ r ∈ [(⟨1, "111", "A", "S", 2, "10:00"⟩ : Fila)], r.id = 1 →
      applyUpd ⟨none, none, none, some 3, none⟩ r = r) :=
  C5_update_affected_mapping [⟨1, "111", "A", "S", 2, "10:00"⟩]
    [⟨1, "111", "A", "S", 3, "10:00"⟩] 1 1 ⟨none, none, none, some 3, none⟩
    (by decide) rfl

/-- After a fault-free delete the rows with the target id are gone,
whatever the original response was. -/
theorem eliminar_db_eq (db : List Fila) (i : Nat) :
    (eliminarEntrada (.ok ()) none db i).db = db.filter (fun r => r.id != i) := by
  simp only [eliminarEntrada, run, execDelete]
  split <;> rfl

/-- C6: delete is idempotent at the HTTP-observable level: a delete whose
statement affects at least one row is answered 200; an id with no matching
row — in particular the second delete of an already-deleted id — is
answered 404, not 500; and 500 arises only from a store failure
(connection checkout or statement execution). -/
theorem C6_delete_idempotent (db : List Fila) (i : Nat) :
    ((∃ r ∈ db, r.id = i) → (eliminarEntrada (.ok ()) none db i).status = 200) ∧
    ((∀ r ∈ db, r.id ≠ i) → (eliminarEntrada (.ok ()) none db i).status = 404) ∧
    (eliminarEntrada (.ok ()) none (eliminarEntrada (.ok ()) none db i).db i).status = 404 ∧
    (∀ (conn : Except String Unit) (fault : Option String),
      (eliminarEntrada conn fault db i).status = 500 →
      (∃ e, conn = .error e) ∨ fault.isSome = true) := by
  have h404 : ∀ d : List Fila, (∀ r ∈ d, r.id ≠ i) →
      (eliminarEntrada (.ok ()) none d i).status = 404 := by
    intro d hd
    have hfil : d.filter (fun r => r.id == i) = [] := by
      rw [List.filter_eq_nil_iff]
      intro r hr
      simpa using hd r hr
    simp [eliminarEntrada, run, execDelete, hfil]
  refine ⟨?_, h404 db, ?_, ?_⟩
  · rintro ⟨r, hr, hid⟩
    have hne : (db.filter (fun r => r.id == i)).length ≠ 0 := by
      intro h0
      rw [List.length_eq_zero, List.filter_eq_nil_iff] at h0
      exact h0 r hr (by simpa using hid)
    simp [eliminarEntrada, run, execDelete, hne]
  · rw [eliminar_db_eq]
    refine h404 _ ?_
    intro r hr
    have := (List.mem_filter.mp hr).2
    simpa using this
  · intro conn fault h500
    cases conn with
    | error e => exact Or.inl ⟨e, rfl⟩
    | ok u =>
      cases fault with
      | some e => exact Or.inr rfl
      | none =>
        exfalso
        by_cases h0 : (db.filter (fun r => r.id == i)).length = 0 <;>
          simp [eliminarEntrada, run, execDelete, h0] at h500

/-- Witness for C6: deleting the sole row answers 200, deleting from an
empty store answers 404, and a 500 can only come from a store failure. -/
theorem C6_delete_idempotent_witness :
    (eliminarEntrada (.ok ()) none [⟨1, "111", "A", "S", 1, "10:00"⟩] 1).status = 200 ∧
    (eliminarEntrada (.ok ()) none [] 1).status = 404 ∧
    ((eliminarEntrada (.error "pool") none [] 1).status = 500 →
      (∃ e, (Except.error "pool" : Except String Unit) = .error e) ∨
        (none : Option String).isSome = true) := by
  refine ⟨?_, ?_, ?_⟩
  · exact (C6_delete_idempotent [⟨1, "111", "A", "S", 1, "10:00"⟩] 1).1
      ⟨⟨1, "111", "A", "S", 1, "10:00"⟩, by decide, rfl⟩
  · exact (C6_delete_idempotent [] 1).2.1 (by simp)
  · exact (C6_delete_idempotent [] 1).2.2.2 (.error "pool") none

/-- C7 counterexample: when the pool cannot yield a connection the list
handler answers 500 (InternalServerError), not 503 (ServiceUnavailable),
refuting "fails with ServiceUnavailable as distinct from the 500 used for
other store failures". -/
theorem C7_counterexample :
    (obtenerEntradas (.error "pool agotada") none []).status = 500 ∧
    (obtenerEntradas (.error "pool agotada") none []).status ≠ 503 := by
  decide

/-- C7 (amended): when the pool cannot yield a connection, each of the five
handlers answers 500 with the same connection-failure message — the same
status as for any other store failure, with no distinct
ServiceUnavailable response. -/
theorem C7_pool_failure_maps_500 (e : String) (fault : Option String)
    (db : List Fila) (i : Nat) (p : CrearEntrada) (u : ActualizarEntrada) :
    (obtenerEntradas (.error e) fault db).status = 500 ∧
    (obtenerEntradaPorId (.error e) fault db i).status = 500 ∧
    (crearEntrada (.error e) fault db p).status = 500 ∧
    (actualizarEntrada (.error e) fault db i u).status = 500 ∧
    (eliminarEntrada (.error e) fault db i).status = 500 ∧
    (obtenerEntradas (.error e) fault db).body =
      .jstr "Error al conectar a la base de datos" :=
  ⟨rfl, rfl, rfl, rfl, rfl, rfl⟩

/-- C8: if pool initialization fails at startup, the process exits
immediately with code 1 — a non-zero code — and never reaches serving. -/
theorem C8_startup_failure_exits (e : String) :
    mainRun (.error e) = .exited 1 ∧ (1 : Nat) ≠ 0 ∧ mainRun (.error e) ≠ .serving :=
  ⟨rfl, Nat.one_ne_zero, fun h => MainOutcome.noConfusion h⟩

/-- A clean store-failure observation: exactly one diagnostic line written
to the operational log, a JSON string message as the body, and the store
left unchanged. -/
def fallaLimpia (db : List Fila) (out : HandlerOut) : Prop :=
  out.log.length = 1 ∧ (∃ s, out.body = CuerpoJson.jstr s) ∧ out.db = db

/-- C9: for every handler and for both store-layer failure modes
(connection checkout failure, statement execution failure), the handler
catches the error, writes exactly one diagnostic line to the operational
log, answers with a JSON string message, and leaves the store unchanged;
the embedded handlers are total functions, so no store error can
propagate past them. -/
theorem C9_failures_logged_and_clean (e : String) (fault : Option String)
    (db : List Fila) (i : Nat) (p : CrearEntrada) (u : ActualizarEntrada)
    (hu : (queryParts u).isEmpty = false) :
    fallaLimpia db (obtenerEntradas (.error e) fault db) ∧
    fallaLimpia db (obtenerEntradas (.ok ()) (some e) db) ∧
    fallaLimpia db (obtenerEntradaPorId (.error e) fault db i) ∧
    fallaLimpia db (obtenerEntradaPorId (.ok ()) (some e) db i) ∧
    fallaLimpia db (crearEntrada (.error e) fault db p) ∧
    fallaLimpia db (crearEntrada (.ok ()) (some e) db p) ∧
    fallaLimpia db (actualizarEntrada (.error e) fault db i u) ∧
    fallaLimpia db (actualizarEntrada (.ok ()) (some e) db i u) ∧
    fallaLimpia db (eliminarEntrada (.error e) fault db i) ∧
    fallaLimpia db (eliminarEntrada (.ok ()) (some e) db i) := by
  refine ⟨⟨rfl, ⟨_, rfl⟩, rfl⟩, ⟨rfl, ⟨_, rfl⟩, rfl⟩, ⟨rfl, ⟨_, rfl⟩, rfl⟩,
    ⟨rfl, ⟨_, rfl⟩, rfl⟩, ⟨rfl, ⟨_, rfl⟩, rfl⟩, ?_, ⟨rfl, ⟨_, rfl⟩, rfl⟩, ?_,
    ⟨rfl, ⟨_, rfl⟩, rfl⟩, ⟨rfl, ⟨_, rfl⟩, rfl⟩⟩
  · by_cases h : hasSub "Duplicate entry" e <;>
      simp [crearEntrada, run, h, fallaLimpia]
  · by_cases h : hasSub "Duplicate entry" e <;>
      simp [actualizarEntrada, run, hu, h, fallaLimpia]

/-- Witness for C9: a query failure on the list handler leaves one log
line, a string body and the store untouched. -/
theorem C9_failures_logged_and_clean_witness :
    fallaLimpia [] (obtenerEntradas (.error "boom") none []) ∧
    fallaLimpia [] (actualizarEntrada (.ok ()) (some "boom") [] 1
      ⟨some "111", none, none, none, none⟩) := by
  have h := C9_failures_logged_and_clean "boom" none [] 1
    ⟨"001", "Ana", "Matrix", 2, "20:00"⟩ ⟨some "111", none, none, none, none⟩ (by decide)
  exact ⟨h.1, h.2.2.2.2.2.2.2.1⟩

/-- C10: the payload types declare the ticket count as an unsigned 32-bit
integer, so a creation or update body whose ticket-count number is
negative or non-integer fails deserialization and is answered 400 with no
store interaction; the count of an accepted creation payload equals the JSON
number; and every row ever stored carries a non-negative ticket count. -/
theorem C10_u32_ticket_count (conn : Except String Unit) (fault : Option String)
    (db : List Fila) (i : Nat) (j : CrearJson) (ju : ActualizarJson) (q : Rat) :
    (j.cantidad_entradas.num < 0 ∨ j.cantidad_entradas.den ≠ 1 →
      (crearConExtraccion conn fault db j).status = 400 ∧
      (crearConExtraccion conn fault db j).db = db ∧
      (crearConExtraccion conn fault db j).execs = 0) ∧
    (ju.cantidad_entradas = some q → q.num < 0 ∨ q.den ≠ 1 →
      (actualizarConExtraccion conn fault db i ju).status = 400 ∧
      (actualizarConExtraccion conn fault db i ju).db = db ∧
      (actualizarConExtraccion conn fault db i ju).execs = 0) ∧
    (∀ p : CrearEntrada, deserCrear j = some p →
      (p.cantidad_entradas : Rat) = j.cantidad_entradas) ∧
    (∀ r ∈ (crearConExtraccion conn fault db j).db, 0 ≤ (r.cantidad_entradas : Int)) ∧
    (∀ r ∈ (actualizarConExtraccion conn fault db i ju).db,
      0 ≤ (r.cantidad_entradas : Int)) := by
  have hde : ∀ w : Rat, w.num < 0 ∨ w.den ≠ 1 → deserU32 w = none := by
    intro w hw
    unfold deserU32
    rw [if_neg]
    rintro ⟨h1, h2, _⟩
    rcases hw with h | h
    · exact absurd h2 (not_le.mpr h)
    · exact h h1
  refine ⟨?_, ?_, ?_, fun r _ => Int.natCast_nonneg _, fun r _ => Int.natCast_nonneg _⟩
  · intro hq
    have hdn : deserCrear j = none := by
      unfold deserCrear
      rw [hde _ hq]
      rfl
    simp [crearConExtraccion, hdn]
  · intro hj hq
    have hdn : deserActualizar ju = none := by
      unfold deserActualizar
      rw [hj]
      simp [hde _ hq]
    simp [actualizarConExtraccion, hdn]
  · intro p hp
    unfold deserCrear at hp
    cases hdu : deserU32 j.cantidad_entradas with
    | none => rw [hdu] at hp; cases hp
    | some n =>
      rw [hdu] at hp
      unfold deserU32 at hdu
      by_cases hc : j.cantidad_entradas.den = 1 ∧ 0 ≤ j.cantidad_entradas.num ∧
          j.cantidad_entradas.num < 4294967296
      · rw [if_pos hc] at hdu
        obtain ⟨rfl⟩ : p = ⟨j.numero_cedula, j.nombre_cliente, j.nombre_funcion, n,
            j.horario_funcion⟩ := by
          cases hp
          rfl
        obtain rfl : j.cantidad_entradas.num.toNat = n := by
          cases hdu
          rfl
        have hnum : ((j.cantidad_entradas.num.toNat : Int) : Rat) =
            (j.cantidad_entradas.num : Rat) := by
          rw [Int.toNat_of_nonneg hc.2.1]
        calc ((j.cantidad_entradas.num.toNat : Nat) : Rat)
            = ((j.cantidad_entradas.num.toNat : Int) : Rat) := by push_cast; ring
          _ = (j.cantidad_entradas.num : Rat) := hnum
          _ = j.cantidad_entradas := (Rat.den_eq_one_iff _).mp hc.1
      · rw [if_neg hc] at hdu
        cases hdu

/-- Witness for C10: a creation body with ticket count -1 and an update
body with ticket count -1 are both answered 400 with the store untouched. -/
theorem C10_u32_ticket_count_witness :
    (crearConExtraccion (.ok ()) none [] ⟨"001", "Ana", "Matrix", -1, "20:00"⟩).status = 400 ∧
    (crearConExtraccion (.ok ()) none [] ⟨"001", "Ana", "Matrix", -1, "20:00"⟩).db = [] ∧
    (crearConExtraccion (.ok ()) none [] ⟨"001", "Ana", "Matrix", -1, "20:00"⟩).execs = 0 ∧
    (actualizarConExtraccion (.ok ()) none [] 1
      ⟨none, none, none, some (-1), none⟩).status = 400 := by
  have h := C10_u32_ticket_count (.ok ()) none [] 1 ⟨"001", "Ana", "Matrix", -1, "20:00"⟩
    ⟨none, none, none, some (-1), none⟩ (-1)
  have hneg : (-1 : Rat).num < 0 ∨ (-1 : Rat).den ≠ 1 := by
    left
    norm_num
  exact ⟨(h.1 hneg).1, (h.1 hneg).2.1, (h.1 hneg).2.2, (h.2.1 rfl hneg).1⟩
